import Mathlib

/-!
Verification of the netatmo-energy-adapter repository.

Shallow embedding of `src/netatmo.js` (token lifecycle, OAuth resume,
cloud client) and `src/adapter.js` (reconciliation engine, device
property cells, battery/signal interpolation).

Conventions of the embedding:
* JS strings are `String`; a missing/undefined string field is modelled
  as `""` (both are falsy in the source's truthiness tests).
* `config.expires` is a millisecond timestamp; `0` models the unset
  (falsy) initial value, exactly matching `this.config.expires || Date.now()`.
* Network I/O is modelled by passing the response the single `fetch`
  of an operation would produce as an explicit argument (a response
  oracle); a flag `requested` records whether the code reaches `fetch`.
* JS timers (`setTimeout`/`clearTimeout`) are modelled by an explicit
  environment holding the pending one-shot timers together with the
  next fresh timer id.
* Thrown `Error` values are modelled with `Except`/`Option`.
-/

/-- A JS value stored in a gateway property cell: the adapter stores
numbers (temperatures, percentages) and strings (heating state, mode);
`undef` is the `undefined` initial cached value set by the property
constructors (`propertyDescription.value` is absent in `createDevices`).
Comparisons in this adapter are always between same-typed values, where
JS loose equality `!=` agrees with structural equality. -/
inductive Value where
  | undef : Value
  | num : ℚ → Value
  | str : String → Value
deriving DecidableEq, Repr

/-- The persisted add-on config slice used by `src/netatmo.js`. -/
structure Config where
  token : String
  refresh_token : String
  expires : Nat
  client_id : String
  client_secret : String
deriving DecidableEq, Repr

/-- The mutable fields of the `Netatmo` class: its config plus the
`refreshInterval` timer handle. -/
structure NetatmoState where
  config : Config
  refreshInterval : Option Nat
deriving DecidableEq, Repr

/-- Ambient timer environment: pending one-shot timers `(id, delay-ms)`
plus the next fresh id.  Mirrors the Node.js timer table as used through
`setTimeout`/`clearTimeout`. -/
structure TimerEnv where
  nextId : Nat
  pending : List (Nat × Int)
deriving DecidableEq, Repr

/-- `setTimeout(cb, delay)`: registers a fresh one-shot timer, returns
its handle. -/
def setTimeout (env : TimerEnv) (delay : Int) : Nat × TimerEnv :=
  (env.nextId, ⟨env.nextId + 1, env.pending ++ [(env.nextId, delay)]⟩)

/-- `clearTimeout(handle)`: removes the timer with that handle. -/
def clearTimeout (env : TimerEnv) (id : Nat) : TimerEnv :=
  ⟨env.nextId, env.pending.filter (fun p => p.1 ≠ id)⟩

/-- Response of `POST /oauth2/token` (refresh or code exchange). -/
structure TokenResponse where
  ok : Bool
  status : Nat
  access_token : String
  expires_in : Nat
  refresh_token : String
deriving DecidableEq, Repr

/-- Errors thrown by the cloud-client operations of `src/netatmo.js`:
`noToken` is `Error("No token found")`, `unauthorized` is
`Error('Unauthorized')` on a 403.  No other error is ever thrown by the
four operations (any other non-2xx returns `[]`). -/
inductive ApiError where
  | noToken : ApiError
  | unauthorized : ApiError
deriving DecidableEq, Repr

/-- Errors thrown by `authenticate`: the state/code validation failure
(`Authentication flow failed. Possible error: ...`, carrying the
payload's error field) and the token-retrieval failure on a non-200
exchange response. -/
inductive AuthError where
  | flowFailed : String → AuthError
  | tokenRetrievalFailed : AuthError
deriving DecidableEq, Repr

instance {ε α : Type} [DecidableEq ε] [DecidableEq α] : DecidableEq (Except ε α)
  | .error a, .error b =>
    if h : a = b then .isTrue (congrArg Except.error h)
    else .isFalse (fun hh => h (Except.error.inj hh))
  | .error _, .ok _ => .isFalse (fun hh => Except.noConfusion hh)
  | .ok _, .error _ => .isFalse (fun hh => Except.noConfusion hh)
  | .ok a, .ok b =>
    if h : a = b then .isTrue (congrArg Except.ok h)
    else .isFalse (fun hh => h (Except.ok.inj hh))

/-- Outcome of one cloud-client operation: the (possibly mutated)
config, whether `fetch` was reached, whether a background `refresh()`
was fired (403 path), and the returned value or thrown error. -/
structure CallResult (α : Type) where
  config : Config
  requested : Bool
  refreshTriggered : Bool
  outcome : Except ApiError α
deriving DecidableEq, Repr

/-- A JS function can return values of different types on different
paths; `getHomeStatus` and the two setters return the literal `[]` on a
non-403 non-2xx response and the parsed payload on 200. -/
inductive JsReturn (α : Type) where
  | emptyArray : JsReturn α
  | val : α → JsReturn α
deriving DecidableEq, Repr

/-- `initRefresh()` of `src/netatmo.js`:
`expiresIn = (config.expires || Date.now()) - Date.now()`; if positive
and a token is present, store a fresh one-shot timer handle in
`this.refreshInterval` (the previous handle is overwritten, the timer
behind it is NOT cleared); otherwise call `refresh()` immediately
(returned as the `Bool` component). -/
def initRefresh (st : NetatmoState) (env : TimerEnv) (now : Nat) :
    NetatmoState × TimerEnv × Bool :=
  let expiresIn : Int :=
    (if st.config.expires ≠ 0 then (st.config.expires : Int) else (now : Int)) - (now : Int)
  if 0 < expiresIn ∧ st.config.token ≠ "" then
    let t := setTimeout env expiresIn
    ({ st with refreshInterval := some t.1 }, t.2, false)
  else
    (st, env, true)

/-- `unInit()`: clears the pending refresh timer, if a handle is held. -/
def unInit (st : NetatmoState) (env : TimerEnv) : TimerEnv :=
  match st.refreshInterval with
  | some id => clearTimeout env id
  | none => env

/-- The state of `refresh()` at its `await fetch` suspension point:
lines 42-43 run `delete this.refreshInterval; this.config.token = '';`
before the refresh-token check and before any network traffic. -/
def refreshStart (st : NetatmoState) : NetatmoState :=
  { config := { st.config with token := "" }, refreshInterval := none }

/-- Result of a `refresh()` run. `requested`: the token endpoint was
contacted; `persisted`: `updateConfig()` was called; `rearmed`:
`initRefresh()` was invoked at the end; `immediateAgain`: that
`initRefresh` decided to fire `refresh()` again synchronously. -/
structure RefreshResult where
  state : NetatmoState
  env : TimerEnv
  requested : Bool
  persisted : Bool
  rearmed : Bool
  immediateAgain : Bool
deriving DecidableEq, Repr

/-- `refresh()` of `src/netatmo.js`, given the token endpoint's
response.  Clears the handle and the access token first; bails out
without a request when no refresh token is stored; on a non-200
response clears both tokens and persists; on 200 stores the new access
token, `expires = now + expires_in * 1000`, the rotated refresh token,
persists and re-arms via `initRefresh`. -/
def refresh (st : NetatmoState) (env : TimerEnv) (now : Nat)
    (resp : TokenResponse) : RefreshResult :=
  let st1 := refreshStart st
  if st1.config.refresh_token = "" then
    ⟨st1, env, false, false, false, false⟩
  else if resp.ok = false ∨ resp.status ≠ 200 then
    ⟨{ st1 with config := { st1.config with token := "", refresh_token := "" } },
      env, true, true, false, false⟩
  else
    let cfg2 := { st1.config with
      token := resp.access_token,
      expires := now + resp.expires_in * 1000,
      refresh_token := resp.refresh_token }
    let r := initRefresh { st1 with config := cfg2 } env now
    ⟨r.1, r.2.1, true, true, true, r.2.2⟩

/-- `get needsAuth()`: true iff no refresh token is stored. -/
def needsAuth (cfg : Config) : Bool :=
  cfg.refresh_token == ""

/-- The callback payload delivered to the suspended `authenticate`
generator (the redirect's query parameters); missing fields are `""`. -/
structure CallbackPayload where
  state : String
  code : String
  error : String
deriving DecidableEq, Repr

/-- Result of resuming `authenticate` with the callback payload. -/
structure AuthResumeResult where
  state : NetatmoState
  env : TimerEnv
  requested : Bool
  persisted : Bool
  outcome : Except AuthError Unit
deriving DecidableEq, Repr

/-- Phase 2 of `async* authenticate(scopes, redirectUri)`: the code
after `yield`, given the nonce (`state`) generated in phase 1 and the
token endpoint's response to the code exchange.  Validation
`!data.state || data.state !== state || !data.code` throws before any
mutation; a non-200 exchange response throws before any mutation; on
200 the token state is written, persisted, and `initRefresh` is run. -/
def authenticateResume (st : NetatmoState) (env : TimerEnv)
    (nonce : String) (payload : CallbackPayload) (now : Nat)
    (resp : TokenResponse) : AuthResumeResult :=
  if payload.state = "" ∨ payload.state ≠ nonce ∨ payload.code = "" then
    ⟨st, env, false, false, .error (.flowFailed payload.error)⟩
  else if resp.ok = false ∨ resp.status ≠ 200 then
    ⟨st, env, true, false, .error .tokenRetrievalFailed⟩
  else
    let cfg2 := { st.config with
      expires := now + resp.expires_in * 1000,
      token := resp.access_token,
      refresh_token := resp.refresh_token }
    let r := initRefresh { st with config := cfg2 } env now
    ⟨r.1, r.2.1, true, true, .ok ()⟩

/-- A home record of the `homesdata` payload (fields used by the
adapter). -/
structure Home where
  id : String
  name : String
deriving DecidableEq, Repr

/-- Response of `POST /api/homesdata`: `homes = some hs` models
`data.body.homes` being an array `hs`; `none` models a body whose
`homes` is not an array (the `Array.isArray` guard). -/
structure HomesDataResponse where
  ok : Bool
  status : Nat
  homes : Option (List Home)
deriving DecidableEq, Repr

/-- A room entry of the `homestatus` payload. -/
structure RoomStatus where
  id : String
  therm_measured_temperature : ℚ
  therm_setpoint_temperature : ℚ
  heating_power_request : ℤ
deriving DecidableEq, Repr

/-- A module entry of the `homestatus` payload. -/
structure ModuleStatus where
  id : String
  type : String
  battery_level : ℚ
  rf_strength : ℚ
deriving DecidableEq, Repr

/-- The `data.body.home` payload of `POST /api/homestatus`. -/
structure HomeStatus where
  rooms : List RoomStatus
  modules : List ModuleStatus
deriving DecidableEq, Repr

/-- Response of `POST /api/homestatus`. -/
structure HomeStatusResponse where
  ok : Bool
  status : Nat
  home : HomeStatus
deriving DecidableEq, Repr

/-- Response of the two setter endpoints; `body` is the parsed
`data.body` payload returned on 200. -/
structure ApiResponse where
  ok : Bool
  status : Nat
  body : String
deriving DecidableEq, Repr

/-- Arguments of `setRoomThermPoint({homeId, roomId, mode, temp})`. -/
structure ThermPointArgs where
  homeId : String
  roomId : String
  mode : String
  temp : ℚ
deriving DecidableEq, Repr

/-- Arguments of `setThermostatMode({homeId, mode})`. -/
structure ThermModeArgs where
  homeId : String
  mode : String
deriving DecidableEq, Repr

/-- `getHomeData(homeId)`: throws `No token found` on an empty token
without fetching; fetches `homesdata`; on non-2xx: a 403 clears the
token, fires `refresh()` and throws `Unauthorized`, anything else
returns `[]`; on 200 returns `data.body.homes` when it is an array,
else `[]`. -/
def getHomeData (cfg : Config) (resp : HomesDataResponse) :
    CallResult (List Home) :=
  if cfg.token = "" then
    ⟨cfg, false, false, .error .noToken⟩
  else if resp.ok = false ∨ resp.status ≠ 200 then
    if resp.status = 403 then
      ⟨{ cfg with token := "" }, true, true, .error .unauthorized⟩
    else
      ⟨cfg, true, false, .ok []⟩
  else
    match resp.homes with
    | some hs => ⟨cfg, true, false, .ok hs⟩
    | none => ⟨cfg, true, false, .ok []⟩

/-- `getHomeStatus(homeId)`: same envelope; on 200 returns
`data.body.home`, on a non-403 non-2xx returns the literal `[]`. -/
def getHomeStatus (cfg : Config) (resp : HomeStatusResponse) :
    CallResult (JsReturn HomeStatus) :=
  if cfg.token = "" then
    ⟨cfg, false, false, .error .noToken⟩
  else if resp.ok = false ∨ resp.status ≠ 200 then
    if resp.status = 403 then
      ⟨{ cfg with token := "" }, true, true, .error .unauthorized⟩
    else
      ⟨cfg, true, false, .ok .emptyArray⟩
  else
    ⟨cfg, true, false, .ok (.val resp.home)⟩

/-- `setRoomThermPoint({homeId, roomId, mode, temp})`: same envelope;
on 200 returns `data.body`. -/
def setRoomThermPoint (cfg : Config) (args : ThermPointArgs)
    (resp : ApiResponse) : CallResult (JsReturn String) :=
  if cfg.token = "" then
    ⟨cfg, false, false, .error .noToken⟩
  else if resp.ok = false ∨ resp.status ≠ 200 then
    if resp.status = 403 then
      ⟨{ cfg with token := "" }, true, true, .error .unauthorized⟩
    else
      ⟨cfg, true, false, .ok .emptyArray⟩
  else
    ⟨cfg, true, false, .ok (.val resp.body)⟩

/-- `setThermostatMode({homeId, mode})`: same envelope; on 200 returns
`data.body`. -/
def setThermostatMode (cfg : Config) (args : ThermModeArgs)
    (resp : ApiResponse) : CallResult (JsReturn String) :=
  if cfg.token = "" then
    ⟨cfg, false, false, .error .noToken⟩
  else if resp.ok = false ∨ resp.status ≠ 200 then
    if resp.status = 403 then
      ⟨{ cfg with token := "" }, true, true, .error .unauthorized⟩
    else
      ⟨cfg, true, false, .ok .emptyArray⟩
  else
    ⟨cfg, true, false, .ok (.val resp.body)⟩

/-! ## `src/adapter.js` -/

/-- The module-type allowlist `AVAILABLE_TYPES`. -/
def availableTypes : List String := ["NRV"]

/-- `DEVICE_PREFIX = 'thermostat-room-'`, as a character list (device
ids are modelled as `List Char` so that `replace`/`split` can be
reasoned about). -/
def devicePrefixChars : List Char :=
  ['t', 'h', 'e', 'r', 'm', 'o', 's', 't', 'a', 't', '-', 'r', 'o', 'o', 'm', '-']

/-- JS `String.prototype.replace(pat, '')` with a string pattern:
removes the first occurrence of `pat`, scanning left to right; the
string is unchanged when `pat` does not occur. -/
def replaceFirst (pat : List Char) : List Char → List Char
  | [] => []
  | c :: cs =>
    if pat.isPrefixOf (c :: cs) then (c :: cs).drop pat.length
    else c :: replaceFirst pat cs

/-- JS `String.prototype.split(sep)` for a single-character separator:
`"".split` is `[""]`, and each separator occurrence opens a new field. -/
def splitChar (sep : Char) : List Char → List (List Char)
  | [] => [[]]
  | c :: cs =>
    if c = sep then [] :: splitChar sep cs
    else
      match splitChar sep cs with
      | [] => [[c]]
      | w :: ws => (c :: w) :: ws

/-- `RoomDevice.getIds()`: strip the first occurrence of
`DEVICE_PREFIX` from the device id, then split on `'-'`. -/
def getIds (id : List Char) : List (List Char) :=
  splitChar '-' (replaceFirst devicePrefixChars id)

/-- A `RoomDevice`'s property table: each property is a last-known-value
cell keyed by its name (`this.properties` with each `Property`'s cached
`value`). -/
structure JsDevice where
  properties : List (String × Value)
deriving DecidableEq, Repr

/-- `this.findProperty(propertyName)`: `none` models `undefined`. -/
def findProperty (d : JsDevice) (name : String) : Option Value :=
  d.properties.lookup name

/-- `property.setCachedValue(value)` on the cell named `name`. -/
def setProp (props : List (String × Value)) (name : String) (v : Value) :
    List (String × Value) :=
  props.map (fun p => if p.1 = name then (p.1, v) else p)

/-- `RoomDevice.updateProperty(propertyName, value)`: looks the cell up
(`none` models the `TypeError` thrown when the property is missing);
when the cached value differs (`property.value != value`) it sets the
cache and calls `notifyPropertyChanged` once; otherwise it does
nothing.  The `Nat` is the number of `notifyPropertyChanged` calls. -/
def updateProperty (d : JsDevice) (name : String) (v : Value) :
    Option (JsDevice × Nat) :=
  match findProperty d name with
  | none => none
  | some v0 =>
    if v0 ≠ v then some (⟨setProp d.properties name v⟩, 1)
    else some (d, 0)

/-- `clamp(num, max = 100, min = 0)` of `src/adapter.js` (the defaults
are passed explicitly here). -/
def clamp (num hi lo : ℚ) : ℚ :=
  max (min num hi) lo

/-- `mapSignalToPercent(signal, min, range = 30)`. -/
def mapSignalToPercent (signal mn range : ℚ) : ℚ :=
  clamp ((mn - signal) / range * 90 + 10) 100 0

/-- `mapRfToPercent(rf)`. -/
def mapRfToPercent (rf : ℚ) : ℚ :=
  mapSignalToPercent rf 90 30

/-- Modelled from the spec's formula for `signalToPercent`:
`clamp(((referenceGood - raw)/range)*90 + 10, 0, 100)` with
`referenceGood = 90`, `range = 30`; used only to compare against the
source's `mapRfToPercent`. -/
def signalToPercentSpec (s : ℚ) : ℚ :=
  max (min ((90 - s) / 30 * 90 + 10) 100) 0

/-- `interpolateBattery(batteryLevel, moduleType)`: the `LEVELS.NRV`
table is `empty 2200, low 2200, medium 2400, high 2700, full 3200` and
`steps = [20, 50, 80, 100]`; at or above `full` 100, below `low` 0,
otherwise `Math.floor(steps[i-1] + (steps[i]-steps[i-1]) *
(batteryLevel-levels[i]) / (levels[i+1]-levels[i]))` for the bracketing
segment `i`.  `none` models the `TypeError` on an unknown module type
(`LEVELS[moduleType]` undefined). -/
def interpolateBattery (batteryLevel : ℚ) (moduleType : String) : Option ℤ :=
  if moduleType = "NRV" then
    if batteryLevel ≥ 3200 then some 100
    else if batteryLevel ≥ 2700 then
      some ⌊(80 : ℚ) + (100 - 80) * (batteryLevel - 2700) / (3200 - 2700)⌋
    else if batteryLevel ≥ 2400 then
      some ⌊(50 : ℚ) + (80 - 50) * (batteryLevel - 2400) / (2700 - 2400)⌋
    else if batteryLevel ≥ 2200 then
      some ⌊(20 : ℚ) + (50 - 20) * (batteryLevel - 2200) / (2400 - 2200)⌋
    else some 0
  else none

/-- The per-room body of `updateHomeData`: the three `updateProperty`
calls for `temperature`, `targetTemperature` and `heating`; `none`
models a thrown `TypeError` (missing property).  The `Nat` sums the
change notifications. -/
def updateRoomProps (dev : JsDevice) (room : RoomStatus) :
    Option (JsDevice × Nat) :=
  match updateProperty dev "temperature" (.num room.therm_measured_temperature) with
  | none => none
  | some (d1, n1) =>
    match updateProperty d1 "targetTemperature" (.num room.therm_setpoint_temperature) with
    | none => none
    | some (d2, n2) =>
      match updateProperty d2 "heating"
          (.str (if room.heating_power_request > 0 then "heating" else "off")) with
      | none => none
      | some (d3, n3) => some (d3, n1 + n2 + n3)

/-- The adapter's `this.devices` table, keyed by `home.id + '-' + room.id`. -/
abbrev DeviceMap : Type := List (String × JsDevice)

/-- Store the mutated device object back (JS mutates in place). -/
def setDevice (devs : DeviceMap) (deviceId : String) (dev : JsDevice) :
    DeviceMap :=
  List.map (fun p => if p.1 = deviceId then (p.1, dev) else p) devs

/-- One iteration of `homeStatusData.rooms.forEach` in
`updateHomeData`: `none` models the `TypeError` thrown when
`this.devices[deviceId]` is `undefined` or a property is missing. -/
def applyRoomUpdate (home : Home) (devs : DeviceMap) (room : RoomStatus) :
    Option DeviceMap :=
  let deviceId := home.id ++ "-" ++ room.id
  match List.lookup deviceId devs with
  | none => none
  | some dev =>
    match updateRoomProps dev room with
    | none => none
    | some (dev', _) => some (setDevice devs deviceId dev')

/-- One iteration of `homeStatusData.modules.forEach` in
`updateHomeData`: skips module types outside `AVAILABLE_TYPES`; an
unmapped module id yields the JS string `"undefined"` in the device id
(template-literal coercion); a missing device or property is a thrown
`TypeError` (`none`). -/
def applyModuleUpdate (moduleMapping : List (String × String)) (home : Home)
    (devs : DeviceMap) (m : ModuleStatus) : Option DeviceMap :=
  if m.type ∈ availableTypes then
    let roomId := match List.lookup m.id moduleMapping with
      | some r => r
      | none => "undefined"
    let deviceId := home.id ++ "-" ++ roomId
    match List.lookup deviceId devs with
    | none => none
    | some dev =>
      match interpolateBattery m.battery_level m.type with
      | none => none
      | some p =>
        match updateProperty dev (m.id ++ "-battery") (.num (p : ℚ)) with
        | none => none
        | some (d1, _) =>
          match updateProperty d1 (m.id ++ "-signal") (.num (mapRfToPercent m.rf_strength)) with
          | none => none
          | some (d2, _) => some (setDevice devs deviceId d2)
  else some devs

/-- Left fold that stops at the first `none` (a thrown exception ends
the surrounding per-home task). -/
def foldOpt {α β : Type} (f : β → α → Option β) : β → List α → Option β
  | b, [] => some b
  | b, a :: as =>
    match f b a with
    | none => none
    | some b' => foldOpt f b' as

/-- The error ending one per-home async task of `updateHomeData`:
either the error thrown by `getHomeStatus`, or a `TypeError` (`[]` has
no `rooms`, missing device, missing property, unknown module type). -/
inductive TaskError where
  | api : ApiError → TaskError
  | typeError : TaskError
deriving DecidableEq, Repr

/-- The body of one `homeData.forEach(async (home) => ...)` task of
`updateHomeData`: fetch the home's status and apply the room and module
updates to the shared device table.  All tasks have read
`this.config.token` before any response arrives, so each sees the
pre-cycle `cfg`. -/
def pollHome (cfg : Config) (moduleMapping : List (String × String))
    (devs : DeviceMap) (home : Home) (resp : HomeStatusResponse) :
    Except TaskError DeviceMap :=
  match (getHomeStatus cfg resp).outcome with
  | .error e => .error (.api e)
  | .ok .emptyArray => .error .typeError
  | .ok (.val status) =>
    match foldOpt (applyRoomUpdate home) devs status.rooms with
    | none => .error .typeError
    | some devs1 =>
      match foldOpt (applyModuleUpdate moduleMapping home) devs1 status.modules with
      | none => .error .typeError
      | some devs2 => .ok devs2

/-- `updateHomeData()` over the homes returned by `getHomeData`: each
home is processed by its own async task (no try/catch around it); a
task that throws leaves the shared device table as it was and its
rejection escapes `updateHomeData` unhandled, while the remaining
homes' tasks still run.  Returns the final device table and the
settlement of each home's task in order (`.error` = unhandled
rejection). -/
def updateHomeData (cfg : Config) (homes : List Home)
    (statuses : String → HomeStatusResponse)
    (moduleMapping : List (String × String)) (devs : DeviceMap) :
    DeviceMap × List (Except TaskError Unit) :=
  homes.foldl
    (fun acc home =>
      match pollHome cfg moduleMapping acc.1 home (statuses home.id) with
      | .error e => (acc.1, acc.2 ++ [Except.error e])
      | .ok d' => (d', acc.2 ++ [Except.ok ()]))
    (devs, [])

/-! ## Helper lemmas -/

lemma replaceFirst_self_append (pat rest : List Char) :
    replaceFirst pat (pat ++ rest) = rest := by
  have hpre : pat.isPrefixOf (pat ++ rest) = true := by
    simp [List.isPrefixOf_iff_prefix]
  cases pat with
  | nil =>
    cases rest with
    | nil => rfl
    | cons c cs => simp [replaceFirst]
  | cons p ps =>
    simp only [List.cons_append] at hpre ⊢
    simp only [replaceFirst, hpre, if_true]
    exact List.drop_left' (by simp)

lemma splitChar_of_not_mem (sep : Char) (r : List Char) (h : sep ∉ r) :
    splitChar sep r = [r] := by
  induction r with
  | nil => rfl
  | cons c cs ih =>
    have hc : ¬c = sep := fun hh => h (hh ▸ List.mem_cons_self c cs)
    have hcs : sep ∉ cs := fun hh => h (List.mem_cons_of_mem c hh)
    simp only [splitChar, if_neg hc, ih hcs]

lemma splitChar_append_sep (sep : Char) (h r : List Char) (hh : sep ∉ h) :
    splitChar sep (h ++ sep :: r) = h :: splitChar sep r := by
  induction h with
  | nil => simp [splitChar]
  | cons c cs ih =>
    have hc : ¬c = sep := fun he => hh (he ▸ List.mem_cons_self c cs)
    have hcs : sep ∉ cs := fun he => hh (List.mem_cons_of_mem c he)
    simp only [List.cons_append, splitChar, if_neg hc, List.append_eq]
    rw [ih hcs]

/-- The NRV branch of `interpolateBattery` as a total function (helper
for stating bounds; proven equal to the source function below). -/
def interpNRV (v : ℚ) : ℤ :=
  if v ≥ 3200 then 100
  else if v ≥ 2700 then ⌊(80 : ℚ) + (100 - 80) * (v - 2700) / (3200 - 2700)⌋
  else if v ≥ 2400 then ⌊(50 : ℚ) + (80 - 50) * (v - 2400) / (2700 - 2400)⌋
  else if v ≥ 2200 then ⌊(20 : ℚ) + (50 - 20) * (v - 2200) / (2400 - 2200)⌋
  else 0

lemma interpolateBattery_nrv (v : ℚ) :
    interpolateBattery v "NRV" = some (interpNRV v) := by
  unfold interpolateBattery interpNRV
  split_ifs <;> simp_all

lemma interpNRV_eq4 {v : ℚ} (h : 3200 ≤ v) : interpNRV v = 100 := by
  unfold interpNRV; rw [if_pos h]

lemma interpNRV_eq3 {v : ℚ} (h1 : 2700 ≤ v) (h2 : v < 3200) :
    interpNRV v = ⌊(80 : ℚ) + (100 - 80) * (v - 2700) / (3200 - 2700)⌋ := by
  unfold interpNRV; rw [if_neg (not_le.mpr h2), if_pos h1]

lemma interpNRV_eq2 {v : ℚ} (h1 : 2400 ≤ v) (h2 : v < 2700) :
    interpNRV v = ⌊(50 : ℚ) + (80 - 50) * (v - 2400) / (2700 - 2400)⌋ := by
  unfold interpNRV
  rw [if_neg (not_le.mpr (by linarith)), if_neg (not_le.mpr h2), if_pos h1]

lemma interpNRV_eq1 {v : ℚ} (h1 : 2200 ≤ v) (h2 : v < 2400) :
    interpNRV v = ⌊(20 : ℚ) + (50 - 20) * (v - 2200) / (2400 - 2200)⌋ := by
  unfold interpNRV
  rw [if_neg (not_le.mpr (by linarith)), if_neg (not_le.mpr (by linarith)),
    if_neg (not_le.mpr h2), if_pos h1]

lemma interpNRV_eq0 {v : ℚ} (h : v < 2200) : interpNRV v = 0 := by
  unfold interpNRV
  rw [if_neg (not_le.mpr (by linarith)), if_neg (not_le.mpr (by linarith)),
    if_neg (not_le.mpr (by linarith)), if_neg (not_le.mpr h)]

lemma seg3_lb {v : ℚ} (h : 2700 ≤ v) :
    (80 : ℤ) ≤ ⌊(80 : ℚ) + (100 - 80) * (v - 2700) / (3200 - 2700)⌋ := by
  rw [Int.le_floor]; push_cast; linarith

lemma seg3_ub {v : ℚ} (h : v < 3200) :
    ⌊(80 : ℚ) + (100 - 80) * (v - 2700) / (3200 - 2700)⌋ < 100 := by
  rw [Int.floor_lt]; push_cast; linarith

lemma seg2_lb {v : ℚ} (h : 2400 ≤ v) :
    (50 : ℤ) ≤ ⌊(50 : ℚ) + (80 - 50) * (v - 2400) / (2700 - 2400)⌋ := by
  rw [Int.le_floor]; push_cast; linarith

lemma seg2_ub {v : ℚ} (h : v < 2700) :
    ⌊(50 : ℚ) + (80 - 50) * (v - 2400) / (2700 - 2400)⌋ < 80 := by
  rw [Int.floor_lt]; push_cast; linarith

lemma seg1_lb {v : ℚ} (h : 2200 ≤ v) :
    (20 : ℤ) ≤ ⌊(20 : ℚ) + (50 - 20) * (v - 2200) / (2400 - 2200)⌋ := by
  rw [Int.le_floor]; push_cast; linarith

lemma seg1_ub {v : ℚ} (h : v < 2400) :
    ⌊(20 : ℚ) + (50 - 20) * (v - 2200) / (2400 - 2200)⌋ < 50 := by
  rw [Int.floor_lt]; push_cast; linarith

lemma interpNRV_le100 (v : ℚ) : interpNRV v ≤ 100 := by
  rcases le_or_lt 3200 v with h4 | h4
  · rw [interpNRV_eq4 h4]
  · rcases le_or_lt 2700 v with h3 | h3
    · rw [interpNRV_eq3 h3 h4]; exact le_of_lt (seg3_ub h4)
    · rcases le_or_lt 2400 v with h2 | h2
      · rw [interpNRV_eq2 h2 h3]
        exact le_trans (le_of_lt (seg2_ub h3)) (by norm_num)
      · rcases le_or_lt 2200 v with h1 | h1
        · rw [interpNRV_eq1 h1 h2]
          exact le_trans (le_of_lt (seg1_ub h2)) (by norm_num)
        · rw [interpNRV_eq0 h1]; norm_num

lemma interpNRV_le80 {v : ℚ} (h : v < 2700) : interpNRV v ≤ 80 := by
  rcases le_or_lt 2400 v with h2 | h2
  · rw [interpNRV_eq2 h2 h]; exact le_of_lt (seg2_ub h)
  · rcases le_or_lt 2200 v with h1 | h1
    · rw [interpNRV_eq1 h1 h2]
      exact le_trans (le_of_lt (seg1_ub h2)) (by norm_num)
    · rw [interpNRV_eq0 h1]; norm_num

lemma interpNRV_le50 {v : ℚ} (h : v < 2400) : interpNRV v ≤ 50 := by
  rcases le_or_lt 2200 v with h1 | h1
  · rw [interpNRV_eq1 h1 h]; exact le_of_lt (seg1_ub h)
  · rw [interpNRV_eq0 h1]; norm_num

lemma interpNRV_nonneg (v : ℚ) : 0 ≤ interpNRV v := by
  rcases le_or_lt 3200 v with h4 | h4
  · rw [interpNRV_eq4 h4]; norm_num
  · rcases le_or_lt 2700 v with h3 | h3
    · rw [interpNRV_eq3 h3 h4]; exact le_trans (by norm_num) (seg3_lb h3)
    · rcases le_or_lt 2400 v with h2 | h2
      · rw [interpNRV_eq2 h2 h3]; exact le_trans (by norm_num) (seg2_lb h2)
      · rcases le_or_lt 2200 v with h1 | h1
        · rw [interpNRV_eq1 h1 h2]; exact le_trans (by norm_num) (seg1_lb h1)
        · rw [interpNRV_eq0 h1]

lemma interpNRV_mono {v1 v2 : ℚ} (h : v1 ≤ v2) : interpNRV v1 ≤ interpNRV v2 := by
  rcases le_or_lt 3200 v2 with b4 | b4
  · rw [interpNRV_eq4 b4]; exact interpNRV_le100 v1
  · rcases le_or_lt 2700 v2 with b3 | b3
    · rw [interpNRV_eq3 b3 b4]
      rcases le_or_lt 2700 v1 with a3 | a3
      · rw [interpNRV_eq3 a3 (lt_of_le_of_lt h b4)]
        exact Int.floor_mono (by linarith)
      · exact le_trans (interpNRV_le80 a3) (seg3_lb b3)
    · rcases le_or_lt 2400 v2 with b2 | b2
      · rw [interpNRV_eq2 b2 b3]
        rcases le_or_lt 2400 v1 with a2 | a2
        · rw [interpNRV_eq2 a2 (lt_of_le_of_lt h b3)]
          exact Int.floor_mono (by linarith)
        · exact le_trans (interpNRV_le50 a2) (seg2_lb b2)
      · rcases le_or_lt 2200 v2 with b1 | b1
        · rw [interpNRV_eq1 b1 b2]
          rcases le_or_lt 2200 v1 with a1 | a1
          · rw [interpNRV_eq1 a1 (lt_of_le_of_lt h b2)]
            exact Int.floor_mono (by linarith)
          · rw [interpNRV_eq0 a1]
            exact le_trans (by norm_num) (seg1_lb b1)
        · rw [interpNRV_eq0 (lt_of_le_of_lt h b1), interpNRV_eq0 b1]

/-! ## Claims -/

/-- C7: for every voltage, `interpolateBattery (·, "NRV")` is
monotonically non-decreasing and lies in `[0, 100]`;
`interpolateBattery 3200 "NRV" = 100`, `interpolateBattery 2100 "NRV"
= 0`, `interpolateBattery 2400 "NRV" = 50`, and
`interpolateBattery 2550 "NRV"` is the floored linear interpolation
`65`, which lies between 50 and 80. -/
theorem c7_interpolateBattery (v v1 v2 : ℚ) (p p1 p2 : ℤ)
    (hp : interpolateBattery v "NRV" = some p)
    (h12 : v1 ≤ v2)
    (hp1 : interpolateBattery v1 "NRV" = some p1)
    (hp2 : interpolateBattery v2 "NRV" = some p2) :
    p1 ≤ p2 ∧ 0 ≤ p ∧ p ≤ 100 ∧
    interpolateBattery 3200 "NRV" = some 100 ∧
    interpolateBattery 2100 "NRV" = some 0 ∧
    interpolateBattery 2400 "NRV" = some 50 ∧
    interpolateBattery 2550 "NRV" = some 65 ∧
    (50 : ℤ) ≤ 65 ∧ (65 : ℤ) ≤ 80 := by
  rw [interpolateBattery_nrv] at hp hp1 hp2
  obtain rfl : interpNRV v = p := Option.some.inj hp
  obtain rfl : interpNRV v1 = p1 := Option.some.inj hp1
  obtain rfl : interpNRV v2 = p2 := Option.some.inj hp2
  exact ⟨interpNRV_mono h12, interpNRV_nonneg v, interpNRV_le100 v,
    by norm_num [interpolateBattery], by norm_num [interpolateBattery],
    by norm_num [interpolateBattery], by norm_num [interpolateBattery],
    by norm_num, by norm_num⟩

/-- C7 witness: the theorem applied at `v = 2550`, `v1 = 2500`,
`v2 = 2600` (values `65`, `60`, `70`). -/
theorem c7_interpolateBattery_witness :
    interpolateBattery 2550 "NRV" = some 65 ∧
    interpolateBattery 2500 "NRV" = some 60 ∧
    interpolateBattery 2600 "NRV" = some 70 ∧
    ((60 : ℤ) ≤ 70 ∧ (0 : ℤ) ≤ 65 ∧ (65 : ℤ) ≤ 100 ∧
      interpolateBattery 3200 "NRV" = some 100 ∧
      interpolateBattery 2100 "NRV" = some 0 ∧
      interpolateBattery 2400 "NRV" = some 50 ∧
      interpolateBattery 2550 "NRV" = some 65 ∧
      (50 : ℤ) ≤ 65 ∧ (65 : ℤ) ≤ 80) :=
  ⟨by norm_num [interpolateBattery], by norm_num [interpolateBattery],
    by norm_num [interpolateBattery],
    c7_interpolateBattery 2550 2500 2600 65 60 70
      (by norm_num [interpolateBattery]) (by norm_num)
      (by norm_num [interpolateBattery]) (by norm_num [interpolateBattery])⟩

/-- C8: `mapRfToPercent s` equals the spec's
`clamp(((90 - s)/30)*90 + 10, 0, 100)` and lies in `[0, 100]`;
`mapRfToPercent 90 = 10`, `mapRfToPercent 100 = 0`; raw values far
better than 90 (at most 60) clamp to 100 and raw values far worse (at
least 94) clamp to 0. -/
theorem c8_mapRfToPercent (s : ℚ) :
    mapRfToPercent s = signalToPercentSpec s ∧
    0 ≤ mapRfToPercent s ∧ mapRfToPercent s ≤ 100 ∧
    mapRfToPercent 90 = 10 ∧ mapRfToPercent 100 = 0 ∧
    (s ≤ 60 → mapRfToPercent s = 100) ∧
    (94 ≤ s → mapRfToPercent s = 0) := by
  refine ⟨rfl, ?_, ?_,
    by norm_num [mapRfToPercent, mapSignalToPercent, clamp],
    by norm_num [mapRfToPercent, mapSignalToPercent, clamp], ?_, ?_⟩
  · unfold mapRfToPercent mapSignalToPercent clamp
    exact le_max_right _ _
  · unfold mapRfToPercent mapSignalToPercent clamp
    exact max_le (min_le_right _ _) (by norm_num)
  · intro hs
    unfold mapRfToPercent mapSignalToPercent clamp
    rw [min_eq_right (by linarith : (100 : ℚ) ≤ (90 - s) / 30 * 90 + 10)]
    exact max_eq_left (by norm_num)
  · intro hs
    unfold mapRfToPercent mapSignalToPercent clamp
    rw [min_eq_left (by linarith : (90 - s) / 30 * 90 + 10 ≤ (100 : ℚ))]
    exact max_eq_right (by linarith)

/-- C8 witness: the theorem applied at `s = 100`. -/
theorem c8_mapRfToPercent_witness :
    mapRfToPercent 100 = signalToPercentSpec 100 ∧
    0 ≤ mapRfToPercent 100 ∧ mapRfToPercent 100 ≤ 100 ∧
    mapRfToPercent 90 = 10 ∧ mapRfToPercent 100 = 0 ∧
    ((100 : ℚ) ≤ 60 → mapRfToPercent 100 = 100) ∧
    ((94 : ℚ) ≤ 100 → mapRfToPercent 100 = 0) :=
  c8_mapRfToPercent 100

/-- C9 (implicit): for a home id and room id containing no `'-'`, a
device id built as `DEVICE_PREFIX + homeId + '-' + roomId` is parsed
back by `getIds` into exactly `[homeId, roomId]`, so the
`setRoomThermPoint`/`setThermostatMode` destructuring addresses the
home and room the device was created for.  (No such guarantee when an
id itself contains `'-'`.) -/
theorem c9_getIds (h r : List Char) (hh : '-' ∉ h) (hr : '-' ∉ r) :
    getIds (devicePrefixChars ++ h ++ '-' :: r) = [h, r] := by
  have hassoc : devicePrefixChars ++ h ++ '-' :: r
      = devicePrefixChars ++ (h ++ '-' :: r) := by
    simp [List.append_assoc]
  rw [getIds, hassoc, replaceFirst_self_append,
    splitChar_append_sep _ _ _ hh, splitChar_of_not_mem _ _ hr]

/-- C9 witness: home id `my`, room id `42`. -/
theorem c9_getIds_witness :
    ('-' ∉ ['m', 'y']) ∧ ('-' ∉ ['4', '2']) ∧
    getIds (devicePrefixChars ++ ['m', 'y'] ++ '-' :: ['4', '2'])
      = [['m', 'y'], ['4', '2']] :=
  ⟨by decide, by decide, c9_getIds ['m', 'y'] ['4', '2'] (by decide) (by decide)⟩

lemma lookup_setProp_self (props : List (String × Value)) (name : String)
    (v : Value) :
    ∀ v0, List.lookup name props = some v0 →
      List.lookup name (setProp props name v) = some v := by
  induction props with
  | nil => intro v0 h; simp [List.lookup] at h
  | cons p tl ih =>
    intro v0 h
    obtain ⟨k, w⟩ := p
    by_cases hk : name = k
    · subst hk
      simp only [setProp, List.map]
      simp [List.lookup]
    · have hbeq : (name == k) = false := beq_eq_false_iff_ne.mpr hk
      simp only [List.lookup, hbeq] at h
      simp only [setProp, List.map]
      rw [if_neg (fun he => hk he.symm)]
      simp only [List.lookup, hbeq]
      exact ih v0 h

/-- C6: `updateProperty` with a value equal to the cached value leaves
the cell untouched and raises no change notification; with a differing
value it overwrites the cache with the new value and raises exactly one
notification. -/
theorem c6_updateProperty (d : JsDevice) (name : String) (v v0 : Value)
    (h : findProperty d name = some v0) :
    (v0 = v → updateProperty d name v = some (d, 0)) ∧
    (v0 ≠ v →
      updateProperty d name v = some (⟨setProp d.properties name v⟩, 1) ∧
      findProperty ⟨setProp d.properties name v⟩ name = some v) := by
  constructor
  · intro he; subst he
    unfold updateProperty
    rw [h]; simp
  · intro hne
    refine ⟨?_, ?_⟩
    · unfold updateProperty
      rw [h]; simp [hne]
    · unfold findProperty at h ⊢
      exact lookup_setProp_self d.properties name v v0 h

/-- C6 witness: a `temperature` cell holding `20` updated with `21`. -/
theorem c6_updateProperty_witness :
    findProperty ⟨[("temperature", Value.num 20)]⟩ "temperature"
      = some (Value.num 20) ∧
    ((Value.num 20 = Value.num 21 →
        updateProperty ⟨[("temperature", Value.num 20)]⟩ "temperature" (Value.num 21)
          = some (⟨[("temperature", Value.num 20)]⟩, 0)) ∧
     (Value.num 20 ≠ Value.num 21 →
        updateProperty ⟨[("temperature", Value.num 20)]⟩ "temperature" (Value.num 21)
          = some (⟨setProp [("temperature", Value.num 20)] "temperature" (Value.num 21)⟩, 1) ∧
        findProperty ⟨setProp [("temperature", Value.num 20)] "temperature" (Value.num 21)⟩
          "temperature" = some (Value.num 21))) :=
  ⟨by decide,
    c6_updateProperty ⟨[("temperature", Value.num 20)]⟩ "temperature"
      (Value.num 21) (Value.num 20) (by decide)⟩

/-- C1 counterexample: with a token present, a non-403 non-2xx response
(HTTP 500) does NOT make `getHomeData` fail: it returns `Except.ok []`
(the code's `return []`), not an error, and leaves the config
unchanged — refuting "on any other non-2xx response the call fails with
a RemoteError". -/
theorem c1_counterexample :
    (getHomeData ⟨"tok", "ref", 0, "", ""⟩ ⟨false, 500, none⟩).outcome = Except.ok [] ∧
    (getHomeData ⟨"tok", "ref", 0, "", ""⟩ ⟨false, 500, none⟩).outcome
      ≠ Except.error ApiError.noToken ∧
    (getHomeData ⟨"tok", "ref", 0, "", ""⟩ ⟨false, 500, none⟩).outcome
      ≠ Except.error ApiError.unauthorized ∧
    (getHomeData ⟨"tok", "ref", 0, "", ""⟩ ⟨false, 500, none⟩).config
      = ⟨"tok", "ref", 0, "", ""⟩ := by
  decide

/-- C1 (amended): for every Cloud Client operation: with an empty
stored token the call fails `noToken` without a request; on HTTP 403
the stored token is cleared, a background refresh fires, and the call
fails `unauthorized`; on any other non-2xx the call does NOT fail — it
returns the literal empty array; on 2xx the parsed envelope payload is
returned. -/
theorem c1_amended (cfg : Config) (rhd : HomesDataResponse)
    (rhs : HomeStatusResponse) (atp : ThermPointArgs) (rtp : ApiResponse)
    (atm : ThermModeArgs) (rtm : ApiResponse) (hs : List Home) :
    (cfg.token = "" →
      getHomeData cfg rhd = ⟨cfg, false, false, .error .noToken⟩ ∧
      getHomeStatus cfg rhs = ⟨cfg, false, false, .error .noToken⟩ ∧
      setRoomThermPoint cfg atp rtp = ⟨cfg, false, false, .error .noToken⟩ ∧
      setThermostatMode cfg atm rtm = ⟨cfg, false, false, .error .noToken⟩) ∧
    (cfg.token ≠ "" →
      ((rhd.ok = false ∨ rhd.status ≠ 200) → rhd.status = 403 →
        getHomeData cfg rhd = ⟨{ cfg with token := "" }, true, true, .error .unauthorized⟩) ∧
      ((rhd.ok = false ∨ rhd.status ≠ 200) → rhd.status ≠ 403 →
        getHomeData cfg rhd = ⟨cfg, true, false, .ok []⟩) ∧
      (rhd.ok = true → rhd.status = 200 → rhd.homes = some hs →
        getHomeData cfg rhd = ⟨cfg, true, false, .ok hs⟩) ∧
      ((rhs.ok = false ∨ rhs.status ≠ 200) → rhs.status = 403 →
        getHomeStatus cfg rhs = ⟨{ cfg with token := "" }, true, true, .error .unauthorized⟩) ∧
      ((rhs.ok = false ∨ rhs.status ≠ 200) → rhs.status ≠ 403 →
        getHomeStatus cfg rhs = ⟨cfg, true, false, .ok .emptyArray⟩) ∧
      (rhs.ok = true → rhs.status = 200 →
        getHomeStatus cfg rhs = ⟨cfg, true, false, .ok (.val rhs.home)⟩) ∧
      ((rtp.ok = false ∨ rtp.status ≠ 200) → rtp.status = 403 →
        setRoomThermPoint cfg atp rtp
          = ⟨{ cfg with token := "" }, true, true, .error .unauthorized⟩) ∧
      ((rtp.ok = false ∨ rtp.status ≠ 200) → rtp.status ≠ 403 →
        setRoomThermPoint cfg atp rtp = ⟨cfg, true, false, .ok .emptyArray⟩) ∧
      (rtp.ok = true → rtp.status = 200 →
        setRoomThermPoint cfg atp rtp = ⟨cfg, true, false, .ok (.val rtp.body)⟩) ∧
      ((rtm.ok = false ∨ rtm.status ≠ 200) → rtm.status = 403 →
        setThermostatMode cfg atm rtm
          = ⟨{ cfg with token := "" }, true, true, .error .unauthorized⟩) ∧
      ((rtm.ok = false ∨ rtm.status ≠ 200) → rtm.status ≠ 403 →
        setThermostatMode cfg atm rtm = ⟨cfg, true, false, .ok .emptyArray⟩) ∧
      (rtm.ok = true → rtm.status = 200 →
        setThermostatMode cfg atm rtm = ⟨cfg, true, false, .ok (.val rtm.body)⟩)) := by
  constructor
  · intro htok
    refine ⟨?_, ?_, ?_, ?_⟩
    · unfold getHomeData
      rw [if_pos htok]
    · unfold getHomeStatus
      rw [if_pos htok]
    · unfold setRoomThermPoint
      rw [if_pos htok]
    · unfold setThermostatMode
      rw [if_pos htok]
  · intro htok
    refine ⟨?_, ?_, ?_, ?_, ?_, ?_, ?_, ?_, ?_, ?_, ?_, ?_⟩
    · intro hor h403
      unfold getHomeData
      rw [if_neg htok, if_pos hor, if_pos h403]
    · intro hor h403
      unfold getHomeData
      rw [if_neg htok, if_pos hor, if_neg h403]
    · intro hok hst hhomes
      unfold getHomeData
      rw [if_neg htok, if_neg (by simp [hok, hst]), hhomes]
    · intro hor h403
      unfold getHomeStatus
      rw [if_neg htok, if_pos hor, if_pos h403]
    · intro hor h403
      unfold getHomeStatus
      rw [if_neg htok, if_pos hor, if_neg h403]
    · intro hok hst
      unfold getHomeStatus
      rw [if_neg htok, if_neg (by simp [hok, hst])]
    · intro hor h403
      unfold setRoomThermPoint
      rw [if_neg htok, if_pos hor, if_pos h403]
    · intro hor h403
      unfold setRoomThermPoint
      rw [if_neg htok, if_pos hor, if_neg h403]
    · intro hok hst
      unfold setRoomThermPoint
      rw [if_neg htok, if_neg (by simp [hok, hst])]
    · intro hor h403
      unfold setThermostatMode
      rw [if_neg htok, if_pos hor, if_pos h403]
    · intro hor h403
      unfold setThermostatMode
      rw [if_neg htok, if_pos hor, if_neg h403]
    · intro hok hst
      unfold setThermostatMode
      rw [if_neg htok, if_neg (by simp [hok, hst])]

/-- C1 witness: the amended envelope at concrete inputs — no token, a
200 with one home, a 403, and a 500. -/
theorem c1_amended_witness :
    getHomeData ⟨"", "ref", 0, "", ""⟩ ⟨true, 200, some []⟩
      = ⟨⟨"", "ref", 0, "", ""⟩, false, false, .error .noToken⟩ ∧
    getHomeData ⟨"tok", "ref", 0, "", ""⟩ ⟨true, 200, some [⟨"h1", "Home"⟩]⟩
      = ⟨⟨"tok", "ref", 0, "", ""⟩, true, false, .ok [⟨"h1", "Home"⟩]⟩ ∧
    getHomeData ⟨"tok", "ref", 0, "", ""⟩ ⟨false, 403, none⟩
      = ⟨⟨"", "ref", 0, "", ""⟩, true, true, .error .unauthorized⟩ ∧
    getHomeData ⟨"tok", "ref", 0, "", ""⟩ ⟨false, 500, none⟩
      = ⟨⟨"tok", "ref", 0, "", ""⟩, true, false, .ok []⟩ := by
  have hA := (c1_amended ⟨"", "ref", 0, "", ""⟩ ⟨true, 200, some []⟩
    ⟨true, 200, ⟨[], []⟩⟩ ⟨"", "", "", 0⟩ ⟨true, 200, ""⟩ ⟨"", ""⟩
    ⟨true, 200, ""⟩ []).1 rfl
  have hB := (c1_amended ⟨"tok", "ref", 0, "", ""⟩ ⟨true, 200, some [⟨"h1", "Home"⟩]⟩
    ⟨true, 200, ⟨[], []⟩⟩ ⟨"", "", "", 0⟩ ⟨true, 200, ""⟩ ⟨"", ""⟩
    ⟨true, 200, ""⟩ [⟨"h1", "Home"⟩]).2 (by decide)
  have hC := (c1_amended ⟨"tok", "ref", 0, "", ""⟩ ⟨false, 403, none⟩
    ⟨true, 200, ⟨[], []⟩⟩ ⟨"", "", "", 0⟩ ⟨true, 200, ""⟩ ⟨"", ""⟩
    ⟨true, 200, ""⟩ []).2 (by decide)
  have hD := (c1_amended ⟨"tok", "ref", 0, "", ""⟩ ⟨false, 500, none⟩
    ⟨true, 200, ⟨[], []⟩⟩ ⟨"", "", "", 0⟩ ⟨true, 200, ""⟩ ⟨"", ""⟩
    ⟨true, 200, ""⟩ []).2 (by decide)
  exact ⟨hA.1, hB.2.2.1 rfl rfl rfl, hC.1 (by decide) rfl,
    hD.2.1 (by decide) (by decide)⟩

/-- C2 counterexample: two homes where the second home's status fetch
throws (403).  The first home's properties ARE updated, but the second
home's failure is NOT caught: its per-home task settles as an
(unhandled) rejection, refuting "that failure is caught and logged for
that home". -/
theorem c2_counterexample :
    updateHomeData ⟨"tok", "ref", 0, "", ""⟩ [⟨"home1", "H1"⟩, ⟨"home2", "H2"⟩]
      (fun s => if s = "home2" then ⟨false, 403, ⟨[], []⟩⟩
        else ⟨true, 200, ⟨[⟨"room1", 21, 19, 0⟩], []⟩⟩)
      []
      [("home1-room1", ⟨[("temperature", Value.undef),
        ("targetTemperature", Value.undef), ("heating", Value.undef)]⟩)]
    = ([("home1-room1", ⟨[("temperature", Value.num 21),
        ("targetTemperature", Value.num 19), ("heating", Value.str "off")]⟩)],
       [Except.ok (), Except.error (TaskError.api ApiError.unauthorized)]) ∧
    Except.error (TaskError.api ApiError.unauthorized)
      ≠ (Except.ok () : Except TaskError Unit) := by
  constructor
  · rfl
  · decide

/-- C2 (amended): a failing status fetch is NOT caught — the per-home
async task rejects — but since every home is processed by its own
independent task, the other homes are unaffected: for two homes where
the second home's status fetch throws, the first home's three room
properties are still updated to the fetched values. -/
theorem c2_updateHomeData_amended (cfg : Config) (htok : cfg.token ≠ "")
    (hid1 hid2 nm1 nm2 rid1 : String) (t s : ℚ) (hp : ℤ)
    (oracle : String → HomeStatusResponse)
    (h1 : oracle hid1 = ⟨true, 200, ⟨[⟨rid1, t, s, hp⟩], []⟩⟩)
    (h2 : oracle hid2 = ⟨false, 403, ⟨[], []⟩⟩) :
    updateHomeData cfg [⟨hid1, nm1⟩, ⟨hid2, nm2⟩] oracle []
      [(hid1 ++ "-" ++ rid1, ⟨[("temperature", Value.undef),
        ("targetTemperature", Value.undef), ("heating", Value.undef)]⟩)]
    = ([(hid1 ++ "-" ++ rid1, ⟨[("temperature", Value.num t),
        ("targetTemperature", Value.num s),
        ("heating", Value.str (if hp > 0 then "heating" else "off"))]⟩)],
       [Except.ok (), Except.error (TaskError.api ApiError.unauthorized)]) := by
  simp [updateHomeData, pollHome, getHomeStatus, applyRoomUpdate,
    applyModuleUpdate, updateRoomProps, updateProperty, findProperty,
    setProp, setDevice, foldOpt, List.foldl, List.lookup, htok, h1, h2,
    availableTypes]

/-- C2 witness: the amended theorem at concrete homes `h1`, `h2` with
`h2`'s fetch rejecting. -/
theorem c2_updateHomeData_amended_witness :
    updateHomeData ⟨"t", "r", 0, "", ""⟩ [⟨"h1", "A"⟩, ⟨"h2", "B"⟩]
      (fun s => if s = "h1" then ⟨true, 200, ⟨[⟨"r1", 20, 18, 5⟩], []⟩⟩
        else ⟨false, 403, ⟨[], []⟩⟩)
      []
      [("h1" ++ "-" ++ "r1", ⟨[("temperature", Value.undef),
        ("targetTemperature", Value.undef), ("heating", Value.undef)]⟩)]
    = ([("h1" ++ "-" ++ "r1", ⟨[("temperature", Value.num 20),
        ("targetTemperature", Value.num 18),
        ("heating", Value.str (if (5 : ℤ) > 0 then "heating" else "off"))]⟩)],
       [Except.ok (), Except.error (TaskError.api ApiError.unauthorized)]) :=
  c2_updateHomeData_amended ⟨"t", "r", 0, "", ""⟩ (by decide)
    "h1" "h2" "A" "B" "r1" 20 18 5 _ (by simp) (by simp)

/-- C3: `refresh()` with a stored refresh token: on a 200 response the
config afterwards holds the response's access token, expiry
`now + expires_in` seconds (in ms), and the rotated refresh token, the
state is persisted, the scheduler re-arms (a one-shot timer with delay
`expires_in * 1000` ms is scheduled), and `!needsAuth` stays true; on a
non-200 response both tokens are cleared, the invalidated state is
persisted, no retry timer is scheduled (the timer environment is
untouched, `initRefresh` is not re-run), and authorization is lost. -/
theorem c3_refresh (st : NetatmoState) (env : TimerEnv) (now : Nat)
    (resp : TokenResponse) (hrt : st.config.refresh_token ≠ "") :
    (resp.ok = true → resp.status = 200 → resp.access_token ≠ "" →
      resp.refresh_token ≠ "" → 0 < resp.expires_in →
      (refresh st env now resp).state.config.token = resp.access_token ∧
      (refresh st env now resp).state.config.expires = now + resp.expires_in * 1000 ∧
      (refresh st env now resp).state.config.refresh_token = resp.refresh_token ∧
      (refresh st env now resp).persisted = true ∧
      (refresh st env now resp).rearmed = true ∧
      (refresh st env now resp).env.pending
        = env.pending ++ [(env.nextId, (resp.expires_in : Int) * 1000)] ∧
      needsAuth (refresh st env now resp).state.config = false) ∧
    (¬(resp.ok = true ∧ resp.status = 200) →
      (refresh st env now resp).state.config.token = "" ∧
      (refresh st env now resp).state.config.refresh_token = "" ∧
      (refresh st env now resp).persisted = true ∧
      (refresh st env now resp).rearmed = false ∧
      (refresh st env now resp).env = env ∧
      needsAuth (refresh st env now resp).state.config = true) := by
  constructor
  · intro hok hst hat hrt2 hei
    have hne : now + resp.expires_in * 1000 ≠ 0 := by omega
    have hor : ¬(resp.ok = false ∨ resp.status ≠ 200) := by simp [hok, hst]
    have harith : ((now + resp.expires_in * 1000 : Nat) : Int) - (now : Int)
        = (resp.expires_in : Int) * 1000 := by push_cast; ring
    have hpos : (0 : Int) < ((now + resp.expires_in * 1000 : Nat) : Int) - (now : Int) := by
      push_cast; omega
    simp only [refresh, refreshStart, initRefresh, setTimeout, needsAuth]
    rw [if_neg hrt, if_neg hor, if_pos hne, if_pos ⟨hpos, hat⟩]
    refine ⟨rfl, rfl, rfl, rfl, rfl, ?_, ?_⟩
    · rw [harith]
    · simpa [beq_eq_false_iff_ne] using hrt2
  · intro hno
    have hcond : resp.ok = false ∨ resp.status ≠ 200 := by
      rcases Bool.eq_false_or_eq_true resp.ok with h | h
      · by_cases hs : resp.status = 200
        · exact absurd ⟨h, hs⟩ hno
        · exact .inr hs
      · exact .inl h
    simp only [refresh, refreshStart, needsAuth]
    rw [if_neg hrt, if_pos hcond]
    exact ⟨rfl, rfl, rfl, rfl, rfl, by simp⟩

/-- C3 witness: a 200 refresh (`expires_in = 3` s at `now = 7` ms) and
a 500 refresh. -/
theorem c3_refresh_witness :
    (refresh ⟨⟨"old", "oldref", 0, "", ""⟩, none⟩ ⟨0, []⟩ 7
        ⟨true, 200, "newtok", 3, "newref"⟩).state.config.token = "newtok" ∧
    (refresh ⟨⟨"old", "oldref", 0, "", ""⟩, none⟩ ⟨0, []⟩ 7
        ⟨true, 200, "newtok", 3, "newref"⟩).state.config.expires = 3007 ∧
    (refresh ⟨⟨"old", "oldref", 0, "", ""⟩, none⟩ ⟨0, []⟩ 7
        ⟨true, 200, "newtok", 3, "newref"⟩).state.config.refresh_token = "newref" ∧
    (refresh ⟨⟨"old", "oldref", 0, "", ""⟩, none⟩ ⟨0, []⟩ 7
        ⟨true, 200, "newtok", 3, "newref"⟩).env.pending = [(0, 3000)] ∧
    needsAuth (refresh ⟨⟨"old", "oldref", 0, "", ""⟩, none⟩ ⟨0, []⟩ 7
        ⟨true, 200, "newtok", 3, "newref"⟩).state.config = false ∧
    (refresh ⟨⟨"old", "oldref", 0, "", ""⟩, none⟩ ⟨0, []⟩ 7
        ⟨false, 500, "", 0, ""⟩).state.config.token = "" ∧
    (refresh ⟨⟨"old", "oldref", 0, "", ""⟩, none⟩ ⟨0, []⟩ 7
        ⟨false, 500, "", 0, ""⟩).state.config.refresh_token = "" ∧
    needsAuth (refresh ⟨⟨"old", "oldref", 0, "", ""⟩, none⟩ ⟨0, []⟩ 7
        ⟨false, 500, "", 0, ""⟩).state.config = true := by
  have h1 := (c3_refresh ⟨⟨"old", "oldref", 0, "", ""⟩, none⟩ ⟨0, []⟩ 7
    ⟨true, 200, "newtok", 3, "newref"⟩ (by decide)).1 rfl rfl (by decide)
    (by decide) (by decide)
  have h2 := (c3_refresh ⟨⟨"old", "oldref", 0, "", ""⟩, none⟩ ⟨0, []⟩ 7
    ⟨false, 500, "", 0, ""⟩ (by decide)).2 (by decide)
  exact ⟨h1.1, h1.2.1.trans (by decide), h1.2.2.1,
    (h1.2.2.2.2.2.1).trans (by decide), h1.2.2.2.2.2.2,
    h2.1, h2.2.1, h2.2.2.2.2.2⟩

/-- C4: resuming `authenticate` with a callback whose `state` is
missing or differs from the nonce, or whose code is missing, throws the
flow error carrying the payload's error field and leaves the token
state (and timers) untouched without contacting the token endpoint; the
exchange is requested only when both checks pass, and a non-200
exchange response throws, also leaving the state untouched. -/
theorem c4_authenticateResume (st : NetatmoState) (env : TimerEnv)
    (nonce : String) (payload : CallbackPayload) (now : Nat)
    (resp : TokenResponse) :
    (payload.state = "" ∨ payload.state ≠ nonce ∨ payload.code = "" →
      authenticateResume st env nonce payload now resp
        = ⟨st, env, false, false, .error (.flowFailed payload.error)⟩) ∧
    (payload.state ≠ "" → payload.state = nonce → payload.code ≠ "" →
      resp.ok = false ∨ resp.status ≠ 200 →
      authenticateResume st env nonce payload now resp
        = ⟨st, env, true, false, .error .tokenRetrievalFailed⟩) ∧
    ((authenticateResume st env nonce payload now resp).requested = true →
      payload.state ≠ "" ∧ payload.state = nonce ∧ payload.code ≠ "") := by
  refine ⟨?_, ?_, ?_⟩
  · intro h1
    unfold authenticateResume
    rw [if_pos h1]
  · intro h1 h2 h3 hor
    have hneg : ¬(payload.state = "" ∨ payload.state ≠ nonce ∨ payload.code = "") := by
      push_neg
      exact ⟨h1, h2, h3⟩
    unfold authenticateResume
    rw [if_neg hneg, if_pos hor]
  · by_cases h1 : payload.state = "" ∨ payload.state ≠ nonce ∨ payload.code = ""
    · intro hreq
      exfalso
      unfold authenticateResume at hreq
      rw [if_pos h1] at hreq
      simp at hreq
    · push_neg at h1
      exact fun _ => ⟨h1.1, h1.2.1, h1.2.2⟩

/-- C4 witness: a mismatched-`state` callback against nonce `abc`, and
a matching callback whose exchange answers 500. -/
theorem c4_authenticateResume_witness :
    authenticateResume ⟨⟨"tk", "rf", 5, "", ""⟩, none⟩ ⟨0, []⟩ "abc"
        ⟨"xyz", "c0", "denied"⟩ 0 ⟨true, 200, "at", 1, "rt"⟩
      = ⟨⟨⟨"tk", "rf", 5, "", ""⟩, none⟩, ⟨0, []⟩, false, false,
          .error (.flowFailed "denied")⟩ ∧
    authenticateResume ⟨⟨"tk", "rf", 5, "", ""⟩, none⟩ ⟨0, []⟩ "abc"
        ⟨"abc", "c0", ""⟩ 0 ⟨false, 500, "", 0, ""⟩
      = ⟨⟨⟨"tk", "rf", 5, "", ""⟩, none⟩, ⟨0, []⟩, true, false,
          .error .tokenRetrievalFailed⟩ := by
  constructor
  · exact (c4_authenticateResume _ _ "abc" ⟨"xyz", "c0", "denied"⟩ 0 _).1
      (by decide)
  · exact (c4_authenticateResume _ _ "abc" ⟨"abc", "c0", ""⟩ 0 _).2.1
      (by decide) rfl (by decide) (by decide)

/-- C5 counterexample: `initRefresh` on a state with a valid token and
future expiry, while a previously scheduled refresh timer (handle `0`)
is still pending: the old timer is NOT cancelled — afterwards two
refresh timers are pending, refuting "first cancelling any previously
scheduled refresh timer so that at most one refresh timer is ever
pending". -/
theorem c5_counterexample :
    ((initRefresh ⟨⟨"tok", "ref", 100, "", ""⟩, some 0⟩ ⟨1, [(0, 42)]⟩ 0).2.1.pending).length = 2 ∧
    (0, (42 : Int)) ∈ (initRefresh ⟨⟨"tok", "ref", 100, "", ""⟩, some 0⟩ ⟨1, [(0, 42)]⟩ 0).2.1.pending ∧
    ¬((initRefresh ⟨⟨"tok", "ref", 100, "", ""⟩, some 0⟩ ⟨1, [(0, 42)]⟩ 0).2.1.pending).length ≤ 1 := by
  decide

/-- C5 (amended): `initRefresh` computes the delay as
`(expires || now) - now`; if the delay is positive and an access token
is present it schedules a fresh one-shot refresh timer with that delay
and overwrites the stored handle WITHOUT cancelling a previously
scheduled timer (every previously pending timer stays pending, so more
than one refresh timer can be pending); otherwise it invokes
`refresh()` immediately and leaves the timer environment untouched. -/
theorem c5_initRefresh_amended (st : NetatmoState) (env : TimerEnv) (now : Nat) :
    (0 < (if st.config.expires ≠ 0 then (st.config.expires : Int) else (now : Int)) - (now : Int) →
      st.config.token ≠ "" →
      (initRefresh st env now).2.1.pending
          = env.pending ++ [(env.nextId,
              (if st.config.expires ≠ 0 then (st.config.expires : Int) else (now : Int)) - (now : Int))] ∧
      (∀ p ∈ env.pending, p ∈ (initRefresh st env now).2.1.pending) ∧
      (initRefresh st env now).1.refreshInterval = some env.nextId ∧
      (initRefresh st env now).2.2 = false) ∧
    (¬(0 < (if st.config.expires ≠ 0 then (st.config.expires : Int) else (now : Int)) - (now : Int)
        ∧ st.config.token ≠ "") →
      initRefresh st env now = (st, env, true)) := by
  constructor
  · intro h1 h2
    unfold initRefresh
    rw [if_pos ⟨h1, h2⟩]
    refine ⟨rfl, ?_, rfl, rfl⟩
    intro p hp
    simp [setTimeout, List.mem_append, hp]
  · intro hneg
    unfold initRefresh
    rw [if_neg hneg]

/-- C5 witness: the amended behaviour at a token valid for 100 ms (a
timer is scheduled) and at an unset expiry (refresh fires
immediately). -/
theorem c5_initRefresh_amended_witness :
    (initRefresh ⟨⟨"tok", "ref", 100, "", ""⟩, none⟩ ⟨0, []⟩ 0).2.1.pending = [(0, 100)] ∧
    (initRefresh ⟨⟨"", "ref", 0, "", ""⟩, none⟩ ⟨0, []⟩ 5).2.2 = true := by
  constructor
  · have h := (c5_initRefresh_amended ⟨⟨"tok", "ref", 100, "", ""⟩, none⟩ ⟨0, []⟩ 0).1
      (by decide) (by decide)
    simpa using h.1
  · have h := (c5_initRefresh_amended ⟨⟨"", "ref", 0, "", ""⟩, none⟩ ⟨0, []⟩ 5).2
      (by decide)
    rw [h]

/-- C10 (implicit): `refresh()` blanks the stored access token before
the refresh-token check and before any network traffic
(`refreshStart`), so every failure path ends with an empty access
token, and while a refresh is in flight every Cloud Client operation
fails its non-empty-token precondition without issuing a request. -/
theorem c10_refreshInflight (st : NetatmoState) (env : TimerEnv) (now : Nat)
    (resp : TokenResponse) (rhd : HomesDataResponse) (rhs : HomeStatusResponse)
    (atp : ThermPointArgs) (rtp : ApiResponse) (atm : ThermModeArgs)
    (rtm : ApiResponse) :
    (refreshStart st).config.token = "" ∧
    (st.config.refresh_token = "" →
      (refresh st env now resp).state.config.token = "" ∧
      (refresh st env now resp).requested = false) ∧
    (resp.ok = false ∨ resp.status ≠ 200 →
      (refresh st env now resp).state.config.token = "") ∧
    getHomeData (refreshStart st).config rhd
      = ⟨(refreshStart st).config, false, false, .error .noToken⟩ ∧
    getHomeStatus (refreshStart st).config rhs
      = ⟨(refreshStart st).config, false, false, .error .noToken⟩ ∧
    setRoomThermPoint (refreshStart st).config atp rtp
      = ⟨(refreshStart st).config, false, false, .error .noToken⟩ ∧
    setThermostatMode (refreshStart st).config atm rtm
      = ⟨(refreshStart st).config, false, false, .error .noToken⟩ := by
  refine ⟨rfl, ?_, ?_, ?_, ?_, ?_, ?_⟩
  · intro h
    simp only [refresh, refreshStart]
    rw [if_pos h]
    exact ⟨rfl, rfl⟩
  · intro hor
    by_cases hrt : st.config.refresh_token = ""
    · simp only [refresh, refreshStart]
      rw [if_pos hrt]
    · simp only [refresh, refreshStart]
      rw [if_neg hrt, if_pos hor]
  · unfold getHomeData refreshStart
    rw [if_pos rfl]
  · unfold getHomeStatus refreshStart
    rw [if_pos rfl]
  · unfold setRoomThermPoint refreshStart
    rw [if_pos rfl]
  · unfold setThermostatMode refreshStart
    rw [if_pos rfl]

/-- C10 witness: a state with no refresh token and a 500 token
response; each cloud-client operation on the in-flight state fails
`noToken` without a request. -/
theorem c10_refreshInflight_witness :
    (refreshStart ⟨⟨"tok", "", 5, "", ""⟩, some 3⟩).config.token = "" ∧
    (refresh ⟨⟨"tok", "", 5, "", ""⟩, some 3⟩ ⟨0, []⟩ 0
        ⟨false, 500, "", 0, ""⟩).state.config.token = "" ∧
    (refresh ⟨⟨"tok", "", 5, "", ""⟩, some 3⟩ ⟨0, []⟩ 0
        ⟨false, 500, "", 0, ""⟩).requested = false ∧
    getHomeData (refreshStart ⟨⟨"tok", "", 5, "", ""⟩, some 3⟩).config
        ⟨true, 200, some []⟩
      = ⟨(refreshStart ⟨⟨"tok", "", 5, "", ""⟩, some 3⟩).config, false, false,
          .error .noToken⟩ := by
  have h := c10_refreshInflight ⟨⟨"tok", "", 5, "", ""⟩, some 3⟩ ⟨0, []⟩ 0
    ⟨false, 500, "", 0, ""⟩ ⟨true, 200, some []⟩ ⟨true, 200, ⟨[], []⟩⟩
    ⟨"", "", "", 0⟩ ⟨true, 200, ""⟩ ⟨"", ""⟩ ⟨true, 200, ""⟩
  exact ⟨h.1, (h.2.1 rfl).1, (h.2.1 rfl).2, h.2.2.2.1⟩
